import Mathlib

/-!
Verification of the grocery analytics repository.

This file gives a shallow embedding, over exact rationals and integers, of
the parts of `grocery_data_generator.py` and `grocery_analysis_app.py` that
the specification talks about, and proves or refutes the specification's
claims about them.

Modelling conventions:
* Python floats are modelled as `ℚ` (exact arithmetic); `round(x, 2)` is
  modelled by `round2` below.
* `datetime` values are modelled as integer seconds since
  2023-01-01 00:00:00 (which is a Sunday); a `timedelta` is an integer
  number of seconds.  Python's `date.weekday()` (Monday = 0 … Sunday = 6)
  becomes `weekdayOfDay` on day numbers.
* Randomness is modelled by passing the drawn values explicitly:
  `random.random()` draws become `ℚ` arguments, `random.randint(a, b)`
  draws become `ℕ` arguments constrained to `[a, b]`, and `random.choice`
  becomes selection at an explicitly given index.
* pandas missing values (NaN, e.g. the sample standard deviation of a
  single observation) are modelled with `Option`, `none` standing for NaN.
-/

namespace Grocery

/-- `DISCOUNT_RATES = [0.05, 0.10, 0.15]` (grocery_data_generator.py line 72). -/
def DISCOUNT_RATES : List ℚ := [5/100, 10/100, 15/100]

/-- Python's `round(x, 2)` (two decimal places), modelled over `ℚ` as
rounding `x * 100` to the nearest integer and dividing by 100. -/
def round2 (x : ℚ) : ℚ := (round (x * 100) : ℚ) / 100

/-- A catalog product as built by `_generate_products`
(grocery_data_generator.py lines 95-119).  The string id `PROD_0001`, … is
modelled by the number `i + 1`; the randomly drawn name, category and
rounded base price are supplied as inputs. -/
structure Product where
  product_id : ℕ
  product_name : String
  category : String
  base_price : ℚ
  is_high_demand : Bool
deriving DecidableEq, Repr

/-- `high_demand_count = int(TOTAL_PRODUCTS * 0.2)` (line 98), generalised to
a catalog size `M`.  Python's `int` truncates the float `M * 0.2` toward
zero, which for every catalog size in range equals the integer division
`M / 5` (note: truncation, not `ceil`). -/
def highDemandCount (M : ℕ) : ℕ := M / 5

/-- `_generate_products` (lines 95-119): product `i` (generation order
`0 ≤ i < M`) is flagged high-demand exactly when `i < high_demand_count`.
The random draws for category, name and price are passed in as functions
of the generation index. -/
def generateProducts (M : ℕ) (cat nm : ℕ → String) (price : ℕ → ℚ) : List Product :=
  (List.range M).map fun i =>
    { product_id := i + 1
      product_name := nm i
      category := cat i
      base_price := price i
      is_high_demand := decide (i < highDemandCount M) }

/-- Seconds in a day. -/
def secondsPerDay : ℤ := 86400

/-- The six fixed holiday dates of `_get_holiday_weeks` (lines 122-129),
as day numbers counted from 2023-01-01: New Year's (Jan 1 = 0),
Christmas (Dec 25 = 358), Thanksgiving (Nov 23 = 326),
Independence Day (Jul 4 = 184), Memorial Day (May 29 = 148),
Labor Day (Sep 4 = 246). -/
def holidays : List ℤ := [0, 358, 326, 184, 148, 246]

/-- Python's `date.weekday()` (Monday = 0 … Sunday = 6) for the day that is
`d` days after 2023-01-01, which is a Sunday. -/
def weekdayOfDay (d : ℤ) : ℤ := (d + 6) % 7

/-- `_get_holiday_weeks` (lines 121-136): for each holiday date,
`week_start = date - timedelta(days=date.weekday())` (the Monday of its
week, at midnight) and `week_end = week_start + timedelta(days=6)` (the
Sunday of its week, at midnight).  Both are stored as second counts. -/
def holiday_weeks : List (ℤ × ℤ) :=
  holidays.map fun h =>
    ((h - weekdayOfDay h) * secondsPerDay,
     (h - weekdayOfDay h) * secondsPerDay + 6 * secondsPerDay)

/-- `_is_holiday_week` (lines 138-142): a timestamp `t` is classified as in
a holiday week when `start <= t <= end` for one of the stored
`(week_start, week_end)` pairs. -/
def is_holiday_week (t : ℤ) : Bool :=
  holiday_weeks.any fun p => decide (p.1 ≤ t) && decide (t ≤ p.2)

/-- The calendar day number of a timestamp (floor division by 86400). -/
def dayOf (t : ℤ) : ℤ := t / secondsPerDay

/-- The holiday-week test as the specification words it: the calendar DATE
of the timestamp (any time of day on that date) lies within the
Monday-through-Sunday calendar week containing one of the six holiday
dates.  Kept separate from `is_holiday_week` so the two can be compared. -/
def inHolidayWeekSpec (t : ℤ) : Bool :=
  holidays.any fun h =>
    decide (h - weekdayOfDay h ≤ dayOf t) && decide (dayOf t ≤ h - weekdayOfDay h + 6)

/-- One iteration of the timestamp rejection loop of `generate_transaction`
(lines 153-167), deciding whether the candidate is accepted.  `rw`, `rh`
and `rr` are the `random.random()` draws of the weekend, holiday and
regular branches; Python's short-circuit `and` means each draw is made
only when its branch is reached. -/
def acceptCandidate (is_weekend is_holiday : Bool) (rw rh rr : ℚ) : Bool :=
  if is_weekend && decide (rw < 3/10) then true
  else if is_holiday && decide (rh < 2/10) then true
  else decide (rr < 1/2)

/-- The per-item quantity pipeline of `generate_transaction`
(lines 183-190): `quantity = randint(1, 10)`; with probability 0.1
(`u2 < 0.1`) it is overwritten by `randint(6, 10)`; with probability 0.001
(`u3 < 0.001`) it is overwritten by `randint(50, 100)`.  The three
`randint` results are `q1`, `q2`, `q3`. -/
def quantityOf (q1 : ℕ) (u2 : ℚ) (q2 : ℕ) (u3 : ℚ) (q3 : ℕ) : ℕ :=
  if u3 < 1/1000 then q3 else if u2 < 1/10 then q2 else q1

/-- The discount computation of `generate_transaction` (lines 197-199):
`discount_chance = 0.4 if is_loyalty else 0.2`, and the discount is
`random.choice(DISCOUNT_RATES)` when `r < discount_chance`, else `0`.
The uniform choice is modelled by an index into `DISCOUNT_RATES`. -/
def discountOf (is_loyalty : Bool) (r : ℚ) (idx : Fin DISCOUNT_RATES.length) : ℚ :=
  if r < (if is_loyalty then 4/10 else 2/10) then DISCOUNT_RATES.get idx else 0

/-- One entry of a transaction's `products` list (lines 192-195). -/
structure ProductEntry where
  product : Product
  quantity : ℕ
deriving DecidableEq, Repr

/-- The transaction record returned by `generate_transaction`
(lines 201-213). -/
structure Transaction where
  transaction_id : String
  customer_id : String
  transaction_datetime : ℤ
  store_location : String
  products : List ProductEntry
  payment_method : String
  loyalty_member : Bool
  discount_applied : ℚ
deriving DecidableEq, Repr

/-- A flattened transaction line as appended by `generate_dataset`
(lines 232-246). -/
structure Row where
  transaction_id : String
  customer_id : String
  transaction_datetime : ℤ
  store_location : String
  product_id : ℕ
  product_name : String
  product_category : String
  quantity : ℕ
  unit_price : ℚ
  total_price : ℚ
  payment_method : String
  loyalty_member : Bool
  discount_applied : ℚ
deriving DecidableEq, Repr

/-- The flattening of one transaction into rows, one per product entry
(`generate_dataset`, lines 226-246): `unit_price` is the product's
`base_price` and
`total_price = round(quantity * unit_price * (1 - discount_applied), 2)`. -/
def flattenTransaction (t : Transaction) : List Row :=
  t.products.map fun e =>
    { transaction_id := t.transaction_id
      customer_id := t.customer_id
      transaction_datetime := t.transaction_datetime
      store_location := t.store_location
      product_id := e.product.product_id
      product_name := e.product.product_name
      product_category := e.product.category
      quantity := e.quantity
      unit_price := e.product.base_price
      total_price := round2 (e.quantity * e.product.base_price * (1 - t.discount_applied))
      payment_method := t.payment_method
      loyalty_member := t.loyalty_member
      discount_applied := t.discount_applied }

/-- All rows of the dataset, in generation order (lines 217-246). -/
def flattenDataset (ts : List Transaction) : List Row :=
  (ts.map flattenTransaction).flatten

/-- The `i`-th file chunk of the splitting loop in `generate_dataset`
(lines 250-259): with `r = len(df) // k` rows per file, chunk `i` is
`df.iloc[i*r : i*r + r]` for `i < k - 1` and `df.iloc[(k-1)*r :]` for the
last chunk. -/
def chunkOf (l : List α) (k i : ℕ) : List α :=
  if i < k - 1 then (l.drop (i * (l.length / k))).take (l.length / k)
  else l.drop (i * (l.length / k))

/-- The list of the `k` file chunks produced by the splitting loop. -/
def splitChunks (l : List α) (k : ℕ) : List (List α) :=
  (List.range k).map (chunkOf l k)

/-! ### Analysis app: anomaly z-scores (`get_anomaly_metrics`, lines 1774-1798) -/

/-- The rows of a given product, i.e. the group of
`df.groupby('product_id')` that the per-product statistics are computed
over and that each row is merged back with. -/
def productGroup (df : List Row) (pid : ℕ) : List Row :=
  df.filter fun r => decide (r.product_id = pid)

/-- The mean of a list of rationals (pandas `mean`). -/
def qmean (xs : List ℚ) : ℚ := xs.sum / (xs.length : ℚ)

/-- The pandas sample variance (`std` squared, with the default `ddof=1`):
`none` models the NaN that pandas produces for a group with fewer than two
observations. -/
def sampleVar (xs : List ℚ) : Option ℚ :=
  if xs.length < 2 then none
  else some ((xs.map fun x => (x - qmean xs) ^ 2).sum / ((xs.length : ℚ) - 1))

/-- The pandas sample standard deviation: the square root of `sampleVar`,
with NaN (`none`) propagated. -/
noncomputable def sampleStd (xs : List ℚ) : Option ℝ :=
  (sampleVar xs).map fun v => Real.sqrt (v : ℝ)

/-- `.replace(0, 1)` on a standard-deviation column (lines 1787-1788):
an exact zero is replaced by 1; NaN (`none`) is NOT replaced. -/
noncomputable def replaceZeroStd (s : Option ℝ) : Option ℝ :=
  s.map fun x => if x = 0 then 1 else x

/-- The quantity observations of a product's group. -/
def qtyValues (df : List Row) (pid : ℕ) : List ℚ :=
  (productGroup df pid).map fun r => (r.quantity : ℚ)

/-- The unit-price observations of a product's group. -/
def priceValues (df : List Row) (pid : ℕ) : List ℚ :=
  (productGroup df pid).map fun r => r.unit_price

/-- The `qty_std` column after `.replace(0, 1)` (line 1787). -/
noncomputable def qtyStdReplaced (df : List Row) (pid : ℕ) : Option ℝ :=
  replaceZeroStd (sampleStd (qtyValues df pid))

/-- The `price_std` column after `.replace(0, 1)` (line 1788). -/
noncomputable def priceStdReplaced (df : List Row) (pid : ℕ) : Option ℝ :=
  replaceZeroStd (sampleStd (priceValues df pid))

/-- `quantity_zscore = (quantity - qty_mean) / qty_std` (line 1790) for one
row, with the row's product group statistics merged in; `none` models a NaN
standard deviation propagating into the z-score. -/
noncomputable def quantity_zscore (df : List Row) (r : Row) : Option ℝ :=
  (qtyStdReplaced df r.product_id).map fun s =>
    ((r.quantity : ℝ) - (qmean (qtyValues df r.product_id) : ℝ)) / s

/-- `price_zscore = (unit_price - price_mean) / price_std` (line 1791). -/
noncomputable def price_zscore (df : List Row) (r : Row) : Option ℝ :=
  (priceStdReplaced df r.product_id).map fun s =>
    ((r.unit_price : ℝ) - (qmean (priceValues df r.product_id) : ℝ)) / s

/-! ### Analysis app: the unguarded z-scores of `create_anomaly_detection`
(lines 1643-1662) -/

/-- The rows of one product group of `create_anomaly_detection`
(lines 1646-1650): there the grouping key is the triple
`['product_id', 'product_name', 'product_category']`.  The statistics are
merged back `on='product_id'` (lines 1659-1660); for every table in which
`product_id` determines the name and the category — in particular every
generated dataset — that merge attaches to each row the statistics of the
row's own triple, which is what this definition looks up. -/
def productGroupViz (df : List Row) (r : Row) : List Row :=
  df.filter fun x => decide (x.product_id = r.product_id) &&
    decide (x.product_name = r.product_name) &&
    decide (x.product_category = r.product_category)

/-- The quantity observations of a row's product group in
`create_anomaly_detection`. -/
def qtyValuesViz (df : List Row) (r : Row) : List ℚ :=
  (productGroupViz df r).map fun x => (x.quantity : ℚ)

/-- The unit-price observations of a row's product group in
`create_anomaly_detection`. -/
def priceValuesViz (df : List Row) (r : Row) : List ℚ :=
  (productGroupViz df r).map fun x => x.unit_price

/-- Float division as it occurs in the unguarded z-scores of
`create_anomaly_detection`: dividing by zero yields a non-finite float —
NaN when the numerator is also zero, ±infinity otherwise — modelled as
`none`; a zero divisor never yields a real number. -/
noncomputable def floatDiv (x s : ℝ) : Option ℝ :=
  if s = 0 then none else some (x / s)

/-- `df_anomaly['quantity_zscore'] = (quantity - avg_quantity) / qty_std`
(line 1661): the divisor is the RAW group standard deviation — there is
no `.replace(0, 1)` anywhere in `create_anomaly_detection`. -/
noncomputable def quantity_zscore_viz (df : List Row) (r : Row) : Option ℝ :=
  (sampleStd (qtyValuesViz df r)).bind fun s =>
    floatDiv ((r.quantity : ℝ) - (qmean (qtyValuesViz df r) : ℝ)) s

/-- `df_anomaly['price_zscore'] = (unit_price - avg_price) / price_std`
(line 1662), likewise with the raw, unreplaced standard deviation. -/
noncomputable def price_zscore_viz (df : List Row) (r : Row) : Option ℝ :=
  (sampleStd (priceValuesViz df r)).bind fun s =>
    floatDiv ((r.unit_price : ℝ) - (qmean (priceValuesViz df r) : ℝ)) s

/-! ### Analysis app: retention metrics (`get_retention_metrics`, lines 2151-2168) -/

/-- The distinct customers of the table, in order of first appearance
(`df['customer_id'].nunique()` counts them; the groupby series is indexed
by them). -/
def customersOf (df : List Row) : List String :=
  (df.map fun r => r.customer_id).dedup

/-- The rows of one customer. -/
def customerRows (df : List Row) (c : String) : List Row :=
  df.filter fun r => decide (r.customer_id = c)

/-- Maximum of a list of integers (pandas `max`; only applied to non-empty
lists below, the default is irrelevant). -/
def listMax : List ℤ → ℤ
  | [] => 0
  | x :: xs => xs.foldl max x

/-- `df.groupby('customer_id')['transaction_datetime'].max()` for one
customer (line 2164). -/
def lastPurchase (df : List Row) (c : String) : ℤ :=
  listMax ((customerRows df c).map fun r => r.transaction_datetime)

/-- `last_purchase_date = df['transaction_datetime'].max()` (line 2163),
the table's global maximum timestamp. -/
def globalLastPurchase (df : List Row) : ℤ :=
  listMax (df.map fun r => r.transaction_datetime)

/-- `days_since_purchase = (last_purchase_date - customer_last_purchase).dt.days`
(line 2165): the timedelta truncated to whole days.  The delta is
non-negative, so integer floor division by 86400 is exact pandas
behaviour. -/
def daysSincePurchase (df : List Row) (c : String) : ℤ :=
  (globalLastPurchase df - lastPurchase df c) / secondsPerDay

/-- `churn_risk = (days_since_purchase > 90).mean() * 100` (line 2166):
the percentage of distinct customers whose truncated day count exceeds
90. -/
def churn_risk (df : List Row) : ℚ :=
  (((customersOf df).filter fun c => decide (90 < daysSincePurchase df c)).length : ℚ) /
    ((customersOf df).length : ℚ) * 100

/-- The churn-risk percentage as claim C9 words it: a customer is churned
when their latest timestamp precedes the global maximum timestamp by more
than 90 days, i.e. by more than `90 * 86400` seconds at timestamp
resolution.  Kept separate from `churn_risk` so the two can be compared. -/
def churnRiskSpec (df : List Row) : ℚ :=
  (((customersOf df).filter fun c =>
      decide (90 * secondsPerDay < globalLastPurchase df - lastPurchase df c)).length : ℚ) /
    ((customersOf df).length : ℚ) * 100

/-- `df.groupby('customer_id')['transaction_id'].nunique()` for one
customer (line 2155): the number of distinct transaction ids. -/
def nuniqueTransactions (df : List Row) (c : String) : ℕ :=
  ((customerRows df c).map fun r => r.transaction_id).dedup.length

/-- `repeat_rate = (repeat_customers > 1).mean() * 100` (line 2156): the
percentage of distinct customers with more than one distinct transaction
id. -/
def repeat_rate (df : List Row) : ℚ :=
  (((customersOf df).filter fun c => decide (1 < nuniqueTransactions df c)).length : ℚ) /
    ((customersOf df).length : ℚ) * 100

/-! ### Sample data for the concrete witnesses -/

/-- A sample product used by the concrete witnesses below. -/
def sampleProduct : Product :=
  { product_id := 1
    product_name := "Whole Milk 1"
    category := "Dairy"
    base_price := 299/100
    is_high_demand := true }

/-- A sample transaction with one product entry. -/
def sampleTransaction : Transaction :=
  { transaction_id := "t1"
    customer_id := "c1"
    transaction_datetime := 0
    store_location := "Downtown"
    products := [{ product := sampleProduct, quantity := 7 }]
    payment_method := "Cash"
    loyalty_member := true
    discount_applied := 5/100 }

/-- The flattened line of `sampleTransaction`:
`7 * 2.99 * 0.95 = 19.8835`, rounded to `19.88`. -/
def sampleRow : Row :=
  { transaction_id := "t1"
    customer_id := "c1"
    transaction_datetime := 0
    store_location := "Downtown"
    product_id := 1
    product_name := "Whole Milk 1"
    product_category := "Dairy"
    quantity := 7
    unit_price := 299/100
    total_price := 1988/100
    payment_method := "Cash"
    loyalty_member := true
    discount_applied := 5/100 }

/-! ### Helper lemmas -/

/-- Concatenating `m` successive slices of width `r` and the rest of the
list gives back the list. -/
lemma flatten_take_chunks {α : Type} (r m : ℕ) (l : List α) :
    ((List.range m).map fun i => (l.drop (i * r)).take r).flatten ++ l.drop (m * r) = l := by
  induction m with
  | zero => simp
  | succ n ih =>
    rw [List.range_succ, List.map_append, List.flatten_append, List.map_cons, List.map_nil,
      List.flatten_cons, List.flatten_nil, List.append_nil, List.append_assoc]
    have h : (l.drop (n * r)).take r ++ l.drop ((n + 1) * r) = l.drop (n * r) := by
      rw [show (n + 1) * r = n * r + r by ring, ← List.drop_drop, List.take_append_drop]
    rw [h, ih]

/-- Filtering `range M` by `· < c` keeps an initial range. -/
lemma range_filter_lt (M c : ℕ) :
    (List.range M).filter (fun i => decide (i < c)) = List.range (min c M) := by
  induction M with
  | zero => simp
  | succ n ih =>
    rw [List.range_succ, List.filter_append, ih]
    by_cases h : n < c
    · have h2 : min c (n + 1) = n + 1 := by omega
      have h1 : min c n = n := by omega
      simp [h, h1, h2, List.range_succ]
    · have h2 : min c (n + 1) = c := by omega
      have h1 : min c n = c := by omega
      simp [h, h1, h2]

/-- The high-demand products of a generated catalog are exactly its first
`M / 5` products. -/
lemma generateProducts_filter_eq_take (M : ℕ) (cat nm : ℕ → String) (price : ℕ → ℚ) :
    (generateProducts M cat nm price).filter (fun p => p.is_high_demand)
      = (generateProducts M cat nm price).take (M / 5) := by
  unfold generateProducts
  rw [List.filter_map]
  have hcomp : ((fun p : Product => p.is_high_demand) ∘ fun i =>
      ({ product_id := i + 1, product_name := nm i, category := cat i, base_price := price i,
         is_high_demand := decide (i < highDemandCount M) } : Product))
      = fun i => decide (i < M / 5) := rfl
  rw [hcomp, range_filter_lt, min_eq_left (Nat.div_le_self M 5), ← List.map_take,
    List.take_range, min_eq_left (Nat.div_le_self M 5)]

/-- A generated catalog flags exactly `M / 5` products as high-demand. -/
lemma generateProducts_filter_length (M : ℕ) (cat nm : ℕ → String) (price : ℕ → ℚ) :
    ((generateProducts M cat nm price).filter fun p => p.is_high_demand).length = M / 5 := by
  rw [generateProducts_filter_eq_take, List.length_take, generateProducts,
    List.length_map, List.length_range]
  exact min_eq_left (Nat.div_le_self M 5)

/-- The mean of a non-empty constant list is the constant. -/
lemma qmean_const (xs : List ℚ) (c : ℚ) (hne : xs ≠ []) (h : ∀ x ∈ xs, x = c) :
    qmean xs = c := by
  have h0 : xs.length ≠ 0 := by simpa [List.length_eq_zero] using hne
  have hlen : (xs.length : ℚ) ≠ 0 := Nat.cast_ne_zero.mpr h0
  rw [qmean, List.sum_eq_card_nsmul xs c h, nsmul_eq_mul, mul_comm, mul_div_assoc,
    div_self hlen, mul_one]

/-- The sample variance of a constant list with at least two elements is
exactly zero. -/
lemma sampleVar_const (xs : List ℚ) (c : ℚ) (hlen : 2 ≤ xs.length) (h : ∀ x ∈ xs, x = c) :
    sampleVar xs = some 0 := by
  have hne : xs ≠ [] := by
    intro hnil
    rw [hnil] at hlen
    simp at hlen
  have hmean := qmean_const xs c hne h
  rw [sampleVar, if_neg (by omega)]
  have hz : (xs.map fun x => (x - qmean xs) ^ 2) = xs.map fun _ => (0 : ℚ) := by
    apply List.map_congr_left
    intro x hx
    rw [hmean, h x hx, sub_self]
    ring
  rw [hz]
  simp

/-- The sample standard deviation of a constant list with at least two
elements is exactly zero. -/
lemma sampleStd_const (xs : List ℚ) (c : ℚ) (hlen : 2 ≤ xs.length) (h : ∀ x ∈ xs, x = c) :
    sampleStd xs = some 0 := by
  rw [sampleStd, sampleVar_const xs c hlen h]
  simp

/-- In `create_anomaly_detection`, an exactly-zero quantity standard
deviation is divided unguarded; the resulting z-score is not a real
number (NaN or ±infinity). -/
lemma quantity_zscore_viz_of_std_zero (df : List Row) (r : Row)
    (h : sampleStd (qtyValuesViz df r) = some 0) :
    quantity_zscore_viz df r = none := by
  rw [quantity_zscore_viz, h]
  simp [floatDiv]

/-- The unit-price analogue of `quantity_zscore_viz_of_std_zero`. -/
lemma price_zscore_viz_of_std_zero (df : List Row) (r : Row)
    (h : sampleStd (priceValuesViz df r) = some 0) :
    price_zscore_viz df r = none := by
  rw [price_zscore_viz, h]
  simp [floatDiv]

/-! ### Claim C1: the stored total price -/

/-- Claim C1: every transaction line appended by `generate_dataset` stores
`total_price = round(quantity * unit_price * (1 - discount_applied), 2)`,
where `unit_price` is the product's `base_price`; so `total_price` is
fully determined by the row's quantity, unit price and discount fields. -/
theorem total_price_formula (ts : List Transaction) :
    (∀ row ∈ flattenDataset ts,
        row.total_price
          = round2 ((row.quantity : ℚ) * row.unit_price * (1 - row.discount_applied))) ∧
    ∀ t ∈ ts, (flattenTransaction t).map (fun r => r.unit_price)
        = t.products.map fun e => e.product.base_price := by
  constructor
  · intro row hrow
    rw [flattenDataset, List.mem_flatten] at hrow
    obtain ⟨rows, hrows, hmem⟩ := hrow
    rw [List.mem_map] at hrows
    obtain ⟨t, _, rfl⟩ := hrows
    rw [flattenTransaction, List.mem_map] at hmem
    obtain ⟨e, _, rfl⟩ := hmem
    rfl
  · intro t _
    rw [flattenTransaction, List.map_map]
    rfl

/-- Concrete check of C1 on `sampleTransaction`. -/
theorem total_price_formula_witness :
    sampleRow.total_price
      = round2 ((sampleRow.quantity : ℚ) * sampleRow.unit_price * (1 - sampleRow.discount_applied)) :=
  (total_price_formula [sampleTransaction]).1 sampleRow (by
    norm_num [flattenDataset, flattenTransaction, sampleTransaction, sampleProduct, sampleRow,
      round2, round_eq, Row.mk.injEq])

/-! ### Claim C2: the file splitting -/

/-- Claim C2: for any row list and any `k ≥ 1` the splitting loop produces
exactly `k` chunks; each of the first `k - 1` chunks has exactly
`⌊n / k⌋` rows, the last chunk has the remaining `n - (k-1) * ⌊n / k⌋`
rows, concatenating the chunks in order reproduces the original list, and
the chunk lengths sum to `n`. -/
theorem split_chunks_spec {α : Type} (l : List α) (k : ℕ) (hk : 1 ≤ k) :
    (splitChunks l k).length = k ∧
    (∀ i, i < k - 1 → (chunkOf l k i).length = l.length / k) ∧
    (chunkOf l k (k - 1)).length = l.length - (k - 1) * (l.length / k) ∧
    (splitChunks l k).flatten = l ∧
    ((splitChunks l k).map List.length).sum = l.length := by
  have hflat : (splitChunks l k).flatten = l := by
    obtain ⟨m, rfl⟩ : ∃ m, k = m + 1 := ⟨k - 1, by omega⟩
    rw [splitChunks, List.range_succ, List.map_append, List.flatten_append,
      List.map_cons, List.map_nil, List.flatten_cons, List.flatten_nil, List.append_nil]
    have hlast : chunkOf l (m + 1) m = l.drop (m * (l.length / (m + 1))) := by
      rw [chunkOf, if_neg (by omega)]
    have hmap : (List.range m).map (chunkOf l (m + 1))
        = (List.range m).map fun i =>
            (l.drop (i * (l.length / (m + 1)))).take (l.length / (m + 1)) := by
      apply List.map_congr_left
      intro i hi
      rw [List.mem_range] at hi
      rw [chunkOf, if_pos (by omega)]
    rw [hlast, hmap, flatten_take_chunks]
  refine ⟨?_, ?_, ?_, hflat, ?_⟩
  · rw [splitChunks, List.length_map, List.length_range]
  · intro i hi
    rw [chunkOf, if_pos hi, List.length_take, List.length_drop]
    have h1 : (i + 1) * (l.length / k) ≤ l.length := by
      calc (i + 1) * (l.length / k) ≤ k * (l.length / k) :=
            Nat.mul_le_mul_right _ (by omega)
        _ = l.length / k * k := Nat.mul_comm _ _
        _ ≤ l.length := Nat.div_mul_le_self _ _
    rw [Nat.succ_mul] at h1
    omega
  · rw [chunkOf, if_neg (by omega), List.length_drop]
  · rw [← List.length_flatten, hflat]

/-- Concrete check of C2: 8 rows into 3 files. -/
theorem split_chunks_spec_witness :
    1 ≤ 3 ∧ (splitChunks (List.range 8) 3).flatten = List.range 8 :=
  ⟨by decide, (split_chunks_spec (List.range 8) 3 (by decide)).2.2.2.1⟩

/-! ### Claims C3 and C4: the high-demand flag -/

/-- Counterexample to claim C3 as stated: for a catalog of size `M = 1`
the code flags `int(1 * 0.2) = 0` products as high-demand, while
`ceil(0.2 * 1) = 1`. -/
theorem high_demand_ceil_counterexample :
    ((generateProducts 1 (fun _ => "Dairy") (fun _ => "Milk") fun _ => 3).filter
        fun p => p.is_high_demand).length = 0 ∧ (⌈(2 : ℚ)/10 * 1⌉ : ℤ) = 1 := by
  constructor
  · decide
  · norm_num [Int.ceil_eq_iff]

/-- Claim C3 as amended: `_generate_products` marks exactly
`int(0.2 * M) = ⌊M / 5⌋` products as high-demand (truncation, not `ceil`),
namely the products at generation-order positions `0` through
`⌊M / 5⌋ - 1` and no others. -/
theorem high_demand_positions (M : ℕ) (cat nm : ℕ → String) (price : ℕ → ℚ) :
    ((generateProducts M cat nm price).filter fun p => p.is_high_demand).length = M / 5 ∧
    ((generateProducts M cat nm price).filter fun p => p.is_high_demand)
      = (generateProducts M cat nm price).take (M / 5) :=
  ⟨generateProducts_filter_length M cat nm price,
   generateProducts_filter_eq_take M cat nm price⟩

/-- Counterexample to claim C4 as stated: for a catalog of size `M = 4`
(so for some `M ≥ 1`) the high-demand subset is empty, and the
`random.choice` over it in `generate_transaction` would fail. -/
theorem high_demand_empty_counterexample :
    (generateProducts 4 (fun _ => "Bakery") (fun _ => "Bread") fun _ => 2).filter
        (fun p => p.is_high_demand) = [] := by decide

/-- Claim C4 as amended: for every catalog size `M ≥ 5` the high-demand
subset is non-empty, so the high-demand selection branch of
`generate_transaction` has non-empty support; for `M ≤ 4` it is empty
(see the counterexample). -/
theorem high_demand_branch_nonempty (M : ℕ) (cat nm : ℕ → String) (price : ℕ → ℚ)
    (hM : 5 ≤ M) :
    (generateProducts M cat nm price).filter (fun p => p.is_high_demand) ≠ [] := by
  intro hnil
  have h := generateProducts_filter_length M cat nm price
  rw [hnil] at h
  simp only [List.length_nil] at h
  omega

/-- Concrete check of the amended C4 at `M = 5`. -/
theorem high_demand_branch_nonempty_witness :
    5 ≤ 5 ∧ (generateProducts 5 (fun _ => "Dairy") (fun _ => "Milk") fun _ => 3).filter
        (fun p => p.is_high_demand) ≠ [] :=
  ⟨by decide,
   high_demand_branch_nonempty 5 (fun _ => "Dairy") (fun _ => "Milk") (fun _ => 3) (by decide)⟩

/-! ### Claim C5: the holiday-week test -/

/-- Counterexample to claim C5 as stated: timestamp 43200 is
2023-01-01 12:00:00, noon of the Sunday of New Year's Monday-to-Sunday
calendar week, yet `_is_holiday_week` classifies it as NOT in a holiday
week, because the stored `week_end` is the Sunday at midnight and the
comparison is on full datetimes. -/
theorem holiday_week_sunday_counterexample :
    is_holiday_week 43200 = false ∧ inHolidayWeekSpec 43200 = true := by decide

/-- Claim C5 as amended: the holiday-week test accepts exactly the
timestamps lying between the Monday 00:00:00 of a holiday's calendar week
and the Sunday 00:00:00 of that week, both inclusive; equivalently, the
candidate's calendar date is the Monday through Saturday of such a week,
or the candidate is exactly the midnight instant of its Sunday.  Moments
of the Sunday after midnight are not classified as in the holiday week. -/
theorem is_holiday_week_iff (t : ℤ) :
    is_holiday_week t = true ↔
      ∃ h ∈ holidays,
        (h - weekdayOfDay h ≤ dayOf t ∧ dayOf t ≤ h - weekdayOfDay h + 5) ∨
          t = (h - weekdayOfDay h + 6) * secondsPerDay := by
  simp only [is_holiday_week, holiday_weeks, List.any_eq_true, List.mem_map,
    exists_exists_and_eq_and, Bool.and_eq_true, decide_eq_true_eq]
  refine exists_congr fun h => and_congr_right fun _ => ?_
  simp only [dayOf, secondsPerDay]
  omega

/-! ### Claim C6: the timestamp rejection scheme -/

/-- Counterexample to claim C6 as stated: a weekend non-holiday candidate
whose weekend draw fails (`0.4 ≥ 0.3`) is nevertheless accepted, because
control falls through the `elif` chain to the regular-day draw
(`0.1 < 0.5`); so a weekend candidate's acceptance is not decided by the
0.3 draw alone. -/
theorem accept_weekend_counterexample :
    acceptCandidate true false (2/5) 0 (1/10) = true ∧ ¬((2 : ℚ)/5 < 3/10) := by
  have h1 : decide ((2 : ℚ)/5 < 3/10) = false := by
    rw [decide_eq_false_iff_not]
    norm_num
  have h2 : decide ((1 : ℚ)/10 < 1/2) = true := by
    rw [decide_eq_true_eq]
    norm_num
  constructor
  · simp [acceptCandidate, h1]
    norm_num
  · norm_num

/-- Claim C6 as amended: one iteration of the rejection loop is a
fall-through chain, not a single class-specific draw per candidate: the
candidate is accepted iff it is a weekend candidate whose 0.3 draw
succeeds, or else (failing that, or on a non-weekend day) it is in a
holiday week and its 0.2 draw succeeds, or else its 0.5 draw succeeds.
In particular a weekend candidate rejected by the 0.3 draw can still be
accepted by the holiday 0.2 draw or the regular-day 0.5 draw. -/
theorem acceptCandidate_iff (w h : Bool) (r1 r2 r3 : ℚ) :
    acceptCandidate w h r1 r2 r3 = true ↔
      (w = true ∧ r1 < 3/10) ∨
        (¬(w = true ∧ r1 < 3/10) ∧ (h = true ∧ r2 < 2/10)) ∨
        (¬(w = true ∧ r1 < 3/10) ∧ ¬(h = true ∧ r2 < 2/10) ∧ r3 < 1/2) := by
  rw [acceptCandidate]
  cases w <;> cases h <;>
    by_cases h1 : r1 < 3/10 <;> by_cases h2 : r2 < 2/10 <;> by_cases h3 : r3 < 1/2 <;>
    simp [h1, h2, h3]

/-! ### Claim C7: the discount invariants -/

/-- Claim C7: every generated discount is either `0` or an element of
`{0.05, 0.10, 0.15}`, and every flattened line of a transaction carries
the same `discount_applied` value as the transaction itself. -/
theorem discount_values :
    (∀ (loyal : Bool) (r : ℚ) (idx : Fin DISCOUNT_RATES.length),
        discountOf loyal r idx = 0 ∨ discountOf loyal r idx ∈ DISCOUNT_RATES) ∧
    ∀ (t : Transaction), ∀ row ∈ flattenTransaction t,
        row.discount_applied = t.discount_applied := by
  constructor
  · intro loyal r idx
    rw [discountOf]
    split_ifs <;>
      first
      | exact Or.inl rfl
      | exact Or.inr (DISCOUNT_RATES.get_mem idx.1 idx.2)
  · intro t row hrow
    rw [flattenTransaction, List.mem_map] at hrow
    obtain ⟨e, _, rfl⟩ := hrow
    rfl

/-- Concrete check of C7: a loyalty customer with draw `0.1 < 0.4` picking
the first rate, and the sample line of `sampleTransaction`. -/
theorem discount_values_witness :
    (discountOf true (1/10) ⟨0, by decide⟩ = 0 ∨
      discountOf true (1/10) ⟨0, by decide⟩ ∈ DISCOUNT_RATES) ∧
    sampleRow.discount_applied = sampleTransaction.discount_applied :=
  ⟨discount_values.1 true (1/10) ⟨0, by decide⟩,
   discount_values.2 sampleTransaction sampleRow (by
     norm_num [flattenTransaction, sampleTransaction, sampleProduct, sampleRow,
       round2, round_eq, Row.mk.injEq])⟩

/-! ### Claim C10: the quantity range -/

/-- Claim C10: with the `randint` draws in their documented ranges
(`randint(1,10)`, `randint(6,10)`, `randint(50,100)`), the per-line
quantity is an integer between 1 and 100 inclusive — never 0 or negative
and never above 100 — and flattening preserves each entry's quantity into
its row. -/
theorem quantity_range :
    (∀ (q1 : ℕ) (u2 : ℚ) (q2 : ℕ) (u3 : ℚ) (q3 : ℕ),
        1 ≤ q1 → q1 ≤ 10 → 6 ≤ q2 → q2 ≤ 10 → 50 ≤ q3 → q3 ≤ 100 →
        1 ≤ quantityOf q1 u2 q2 u3 q3 ∧ quantityOf q1 u2 q2 u3 q3 ≤ 100) ∧
    ∀ (t : Transaction), (flattenTransaction t).map (fun r => r.quantity)
        = t.products.map fun e => e.quantity := by
  constructor
  · intro q1 u2 q2 u3 q3 h1 h2 h3 h4 h5 h6
    rw [quantityOf]
    split_ifs <;> omega
  · intro t
    rw [flattenTransaction, List.map_map]
    rfl

/-- Concrete check of C10 with draws `3`, `7`, `60`. -/
theorem quantity_range_witness :
    1 ≤ quantityOf 3 (1/2) 7 (1/2) 60 ∧ quantityOf 3 (1/2) 7 (1/2) 60 ≤ 100 :=
  quantity_range.1 3 (1/2) 7 (1/2) 60 (by decide) (by decide) (by decide) (by decide)
    (by decide) (by decide)

/-! ### Claim C8: the anomaly z-scores -/

/-- First of two lines of product 1 with the same quantity. -/
def anomalyRowA : Row :=
  { transaction_id := "t1"
    customer_id := "c1"
    transaction_datetime := 0
    store_location := "Downtown"
    product_id := 1
    product_name := "P1"
    product_category := "Dairy"
    quantity := 4
    unit_price := 2
    total_price := 8
    payment_method := "Cash"
    loyalty_member := false
    discount_applied := 0 }

/-- Second line of product 1, same quantity as the first. -/
def anomalyRowB : Row :=
  { anomalyRowA with transaction_id := "t2" }

/-- A product (id 2) with a single line. -/
def anomalySingle : Row :=
  { anomalyRowA with
    transaction_id := "t3"
    product_id := 2
    product_name := "P2"
    quantity := 7
    unit_price := 3
    total_price := 21 }

/-- An exactly-zero standard deviation is replaced by 1. -/
lemma replaceZeroStd_of_zero (s : Option ℝ) (h : s = some 0) : replaceZeroStd s = some 1 := by
  subst h
  simp [replaceZeroStd]

/-- The replaced standard deviation is never an exact zero. -/
lemma replaceZeroStd_ne_zero (s : Option ℝ) : replaceZeroStd s ≠ some 0 := by
  rw [replaceZeroStd]
  cases s with
  | none => simp
  | some x =>
    by_cases hx : x = 0
    · simp [hx]
    · simp [hx]

/-- Counterexample to claim C8 as stated, at both cited computations.
In `get_anomaly_metrics`: product 2 has constant quantity across all its
lines (a single line, quantity 7), but that line's quantity z-score is
NaN (`none`), not 0 — the sample standard deviation of a single
observation is NaN, and `.replace(0, 1)` replaces only exact zeros.
In `create_anomaly_detection`: product 1 has two lines of constant
quantity 4, so its quantity standard deviation is exactly zero, yet that
zero is NOT replaced by 1 — it is divided as-is, and every line's
quantity z-score there is NaN (`0 / 0`), not 0. -/
theorem zscore_nan_counterexample :
    quantity_zscore [anomalySingle] anomalySingle = none ∧
    (∀ x ∈ productGroup [anomalySingle] anomalySingle.product_id,
      x.quantity = anomalySingle.quantity) ∧
    sampleStd (qtyValuesViz [anomalyRowA, anomalyRowB] anomalyRowA) = some 0 ∧
    quantity_zscore_viz [anomalyRowA, anomalyRowB] anomalyRowA = none ∧
    ∀ x ∈ productGroupViz [anomalyRowA, anomalyRowB] anomalyRowA,
      x.quantity = anomalyRowA.quantity := by
  have hall : ∀ y ∈ productGroupViz [anomalyRowA, anomalyRowB] anomalyRowA,
      y.quantity = anomalyRowA.quantity := by decide
  have hstd : sampleStd (qtyValuesViz [anomalyRowA, anomalyRowB] anomalyRowA) = some 0 := by
    apply sampleStd_const _ ((anomalyRowA.quantity : ℚ))
    · decide
    · intro x hx
      rw [qtyValuesViz, List.mem_map] at hx
      obtain ⟨y, hy, rfl⟩ := hx
      rw [hall y hy]
  exact ⟨rfl, by decide, hstd, quantity_zscore_viz_of_std_zero _ _ hstd, hall⟩

/-- Claim C8 as amended.  In `get_anomaly_metrics` (lines 1774-1798): an
exactly-zero per-product standard deviation of quantity or of unit price
is replaced by 1, the replaced divisor is never zero, and for a product
with AT LEAST TWO lines and constant quantity every line's quantity
z-score is 0; a product with a single line has NaN standard deviation,
which `.replace(0, 1)` leaves as NaN, so its z-score is NaN, not 0.  In
`create_anomaly_detection` (lines 1658-1662) there is no replacement: an
exactly-zero standard deviation of quantity or of unit price is divided
as-is, so the z-score there is not a real number, and in particular for
a product with at least two lines and constant quantity every line's
quantity z-score is NaN (`0 / 0`), not 0 (see the counterexample). -/
theorem zscore_zero_std (df : List Row) (pid : ℕ) :
    (sampleStd (qtyValues df pid) = some 0 → qtyStdReplaced df pid = some 1) ∧
    (sampleStd (priceValues df pid) = some 0 → priceStdReplaced df pid = some 1) ∧
    qtyStdReplaced df pid ≠ some 0 ∧
    priceStdReplaced df pid ≠ some 0 ∧
    (∀ r ∈ df, r.product_id = pid → 2 ≤ (productGroup df pid).length →
      (∀ x ∈ productGroup df pid, x.quantity = r.quantity) →
      quantity_zscore df r = some 0) ∧
    (∀ r : Row, sampleStd (qtyValuesViz df r) = some 0 → quantity_zscore_viz df r = none) ∧
    (∀ r : Row, sampleStd (priceValuesViz df r) = some 0 → price_zscore_viz df r = none) ∧
    ∀ r ∈ df, 2 ≤ (productGroupViz df r).length →
      (∀ x ∈ productGroupViz df r, x.quantity = r.quantity) →
      quantity_zscore_viz df r = none := by
  refine ⟨replaceZeroStd_of_zero _, replaceZeroStd_of_zero _,
    replaceZeroStd_ne_zero _, replaceZeroStd_ne_zero _, ?_,
    fun r h => quantity_zscore_viz_of_std_zero df r h,
    fun r h => price_zscore_viz_of_std_zero df r h, ?_⟩
  · intro r hr hpid hlen hconst
    have hlen2 : 2 ≤ (qtyValues df pid).length := by
      rw [qtyValues, List.length_map]
      exact hlen
    have hne : qtyValues df pid ≠ [] := by
      intro hnil
      rw [hnil] at hlen2
      simp at hlen2
    have hmean : qmean (qtyValues df pid) = (r.quantity : ℚ) := by
      apply qmean_const _ _ hne
      intro x hx
      rw [qtyValues, List.mem_map] at hx
      obtain ⟨y, hy, rfl⟩ := hx
      rw [hconst y hy]
    obtain ⟨v, hv⟩ : ∃ v, sampleVar (qtyValues df pid) = some v := by
      rw [sampleVar, if_neg (by omega)]
      exact ⟨_, rfl⟩
    rw [quantity_zscore, hpid, qtyStdReplaced, sampleStd, hv, hmean]
    simp [replaceZeroStd]
  · intro r hr hlen hconst
    apply quantity_zscore_viz_of_std_zero
    apply sampleStd_const _ ((r.quantity : ℚ))
    · rw [qtyValuesViz, List.length_map]
      exact hlen
    · intro x hx
      rw [qtyValuesViz, List.mem_map] at hx
      obtain ⟨y, hy, rfl⟩ := hx
      rw [hconst y hy]

/-- Concrete check of the amended C8: two lines of product 1, both with
quantity 4 — z-score 0 in `get_anomaly_metrics`, NaN (`none`) in
`create_anomaly_detection`. -/
theorem zscore_zero_std_witness :
    quantity_zscore [anomalyRowA, anomalyRowB] anomalyRowA = some 0 ∧
    quantity_zscore_viz [anomalyRowA, anomalyRowB] anomalyRowA = none :=
  ⟨(zscore_zero_std [anomalyRowA, anomalyRowB] 1).2.2.2.2.1 anomalyRowA (by decide) (by decide)
      (by decide) (by decide),
   (zscore_zero_std [anomalyRowA, anomalyRowB] 1).2.2.2.2.2.2.2 anomalyRowA (by decide)
      (by decide) (by decide)⟩

/-! ### Claim C9: the retention metrics -/

/-- Retention data: customer `a` purchases at the global maximum
timestamp. -/
def churnRowA : Row :=
  { transaction_id := "ta"
    customer_id := "a"
    transaction_datetime := 7776001
    store_location := "Downtown"
    product_id := 1
    product_name := "P1"
    product_category := "Dairy"
    quantity := 1
    unit_price := 2
    total_price := 2
    payment_method := "Cash"
    loyalty_member := false
    discount_applied := 0 }

/-- Retention data: customer `b`'s last purchase is 90 days and 1 second
(7776001 seconds) before the global maximum timestamp. -/
def churnRowB : Row :=
  { churnRowA with
    transaction_id := "tb"
    customer_id := "b"
    transaction_datetime := 0 }

/-- Counterexample to claim C9 as stated: customer `b`'s latest timestamp
precedes the global maximum by 90 days and 1 second — more than 90 days —
yet the code's churn risk is 0% rather than the claim's 50%, because
`.dt.days` truncates the timedelta to 90 whole days, which is not
`> 90`. -/
theorem churn_days_counterexample :
    churn_risk [churnRowA, churnRowB] = 0 ∧ churnRiskSpec [churnRowA, churnRowB] = 50 := by
  have h3 : customersOf [churnRowA, churnRowB] = ["a", "b"] := by decide
  have h1 : (customersOf [churnRowA, churnRowB]).filter
      (fun c => decide (90 < daysSincePurchase [churnRowA, churnRowB] c)) = [] := by decide
  have h2 : (customersOf [churnRowA, churnRowB]).filter
      (fun c => decide (90 * secondsPerDay <
        globalLastPurchase [churnRowA, churnRowB] - lastPurchase [churnRowA, churnRowB] c))
      = ["b"] := by decide
  constructor
  · rw [churn_risk, h1, h3]
    norm_num
  · rw [churnRiskSpec, h2, h3]
    norm_num

/-- Claim C9 as amended: for a non-empty line table,
`get_retention_metrics` computes the churn risk as the percentage of
distinct customers whose latest timestamp precedes the table's global
maximum timestamp by at least 91 whole days (`.dt.days` truncates the
timedelta, so `days > 90` means `delta ≥ 91 * 86400` seconds rather than
`delta > 90 * 86400`), and the repeat-purchase rate as the percentage of
distinct customers with more than one distinct transaction id. -/
theorem retention_metrics (df : List Row) (hdf : df ≠ []) :
    churn_risk df
      = (((customersOf df).filter fun c =>
            decide (91 * secondsPerDay ≤ globalLastPurchase df - lastPurchase df c)).length : ℚ) /
          ((customersOf df).length : ℚ) * 100 ∧
    repeat_rate df
      = (((customersOf df).filter fun c =>
            decide (1 < ((customerRows df c).map fun r => r.transaction_id).dedup.length)).length : ℚ) /
          ((customersOf df).length : ℚ) * 100 := by
  constructor
  · have hfilter : (customersOf df).filter (fun c => decide (90 < daysSincePurchase df c))
        = (customersOf df).filter (fun c =>
            decide (91 * secondsPerDay ≤ globalLastPurchase df - lastPurchase df c)) := by
      apply List.filter_congr
      intro c _
      rw [decide_eq_decide]
      simp only [daysSincePurchase, secondsPerDay]
      omega
    rw [churn_risk, hfilter]
  · rfl

/-- Concrete check of the amended C9 on the two-customer table. -/
theorem retention_metrics_witness :
    churn_risk [churnRowA, churnRowB]
      = (((customersOf [churnRowA, churnRowB]).filter fun c =>
            decide (91 * secondsPerDay ≤
              globalLastPurchase [churnRowA, churnRowB] - lastPurchase [churnRowA, churnRowB] c)).length : ℚ) /
          ((customersOf [churnRowA, churnRowB]).length : ℚ) * 100 :=
  (retention_metrics [churnRowA, churnRowB] (by decide)).1

end Grocery
